import Mathlib

/-!
Shallow embedding of `checkin.py` (AnyRouter / AgentRouter check-in script).

Python dicts used as cookie jars and JSON objects are modelled as association
lists where the *last* binding for a key wins (matching Python dict assignment
and `{**a, **b}` unpacking order).  Effectful calls (browser launch, page
navigation, HTTP requests) are modelled as `Except`-valued inputs supplied by
an environment record; a Python exception is an `Except.error` carrying the
exception text.  Python numbers in JSON payloads are modelled as `Int`, and
the `round(x, 2)` normalisation as exact rational round-half-to-even at two
decimal places.
-/

/-- Association-list lookup with Python-dict semantics: the binding appearing
last in the list wins (later `d[k] = v` assignments overwrite earlier ones). -/
def dictFind : List (String × String) → String → Option String
  | [], _ => none
  | (k, v) :: rest, key =>
    match dictFind rest key with
    | some w => some w
    | none => if k = key then some v else none

/-- Keys of a cookie dict. -/
def dictKeys (d : List (String × String)) : List String :=
  d.map Prod.fst

/-- `{**a, **b}`: insert the entries of `a` first, then those of `b`; under
`dictFind`'s last-wins semantics the `b` value is retained on a key clash. -/
def mergeDicts (a b : List (String × String)) : List (String × String) :=
  a ++ b

/-- Raw cookie payload of an account: a ready mapping, a `;`-separated cookie
string, or anything else (`None`, a list, ...). -/
inductive CookiesData
  | dict (d : List (String × String))
  | str (s : String)
  | other
deriving DecidableEq

/-- Python `str.split(sep)` for a one-character separator, on character
lists. -/
def splitOnChar (sep : Char) (l : List Char) : List (List Char) :=
  l.foldr
    (fun c acc =>
      match acc with
      | [] => [[c]]
      | h :: t => if c = sep then [] :: h :: t else (c :: h) :: t)
    [[]]

/-- Python `str.strip()`: drop whitespace from both ends. -/
def stripChars (l : List Char) : List Char :=
  ((l.dropWhile Char.isWhitespace).reverse.dropWhile Char.isWhitespace).reverse

/-- Embedding of `parse_cookies` (checkin.py lines 56-67): a dict is returned
as is; a string is split on `;`, each segment containing `=` is stripped and
split on its first `=` into key and value; any other payload yields the empty
mapping. -/
def parse_cookies : CookiesData → List (String × String)
  | CookiesData.dict d => d
  | CookiesData.str s =>
    (splitOnChar ';' s.data).foldl
      (fun acc cookie =>
        if cookie.contains '=' then
          let t := stripChars cookie
          let key := t.takeWhile (fun c => c ≠ '=')
          let value := (t.dropWhile (fun c => c ≠ '=')).drop 1
          acc ++ [(key.asString, value.asString)]
        else acc)
      []
  | CookiesData.other => []

/-- Provider configuration. Modelled from the spec: `ProviderConfig` is loaded
by the excluded configuration loader (`utils.config`, not part of the core
source); `needs_waf_cookies()` / `needs_manual_check_in()` are its flag
accessors (spec section 3). -/
structure ProviderConfig where
  domain : String
  login_path : String
  user_info_path : String
  sign_in_path : String
  api_user_key : String
  needs_waf_cookies : Bool
  needs_manual_check_in : Bool
deriving DecidableEq

/-- Account configuration. Modelled from the spec: provider id, raw cookie
payload, API user id, display name (spec section 3); loaded by the excluded
configuration loader. -/
structure AccountConfig where
  provider : String
  cookies : CookiesData
  api_user : String
  name : String
deriving DecidableEq

/-- The three WAF cookie names required by `get_waf_cookies_with_playwright`
(checkin.py line 109). -/
def wafRequired : List String := ["acw_tc", "cdn_sec_tc", "acw_sc__v2"]

/-- Harvesting loop of `get_waf_cookies_with_playwright` (lines 101-106): keep
the page cookies whose name is one of the three WAF names and whose value is
non-empty (truthy). -/
def harvestWaf (pageCookies : List (String × String)) : List (String × String) :=
  pageCookies.filter (fun c => wafRequired.contains c.1 && c.2 ≠ "")

/-- Missing-cookie check of `get_waf_cookies_with_playwright` (line 110):
required names absent from the harvested set. -/
def wafMissing (waf_cookies : List (String × String)) : List String :=
  wafRequired.filter (fun r => !(dictKeys waf_cookies).contains r)

/-- Embedding of `get_waf_cookies_with_playwright` (lines 71-122).
`launch` is the outcome of the `launch_persistent_context` call (browser
mechanics are an external collaborator; in the source this call always raises
`NameError` because its argument list contains `ignorg_https_errors=true`
with `true` an unbound Python name — that outcome is `Except.error`).  The
launch happens *outside* the inner `try`, so its exception propagates.
`nav` is the outcome of the page navigation / cookie harvest interaction,
which happens *inside* the inner `try`: an exception there is caught and the
function returns `None`.  With all page cookies in hand, the three WAF names
are filtered out; if any required name is missing the function reports
failure (`None`, printing the missing names), else it returns the harvest. -/
def get_waf_cookies_with_playwright (launch : Except String Unit)
    (nav : Except String (List (String × String))) :
    Except String (Option (List (String × String))) := do
  let _ ← launch
  match nav with
  | Except.error _ => pure none
  | Except.ok pageCookies =>
    let waf_cookies := harvestWaf pageCookies
    let missing := wafMissing waf_cookies
    if missing.isEmpty then pure (some waf_cookies) else pure none

/-- Embedding of `prepare_cookies` (lines 166-177): when the provider needs
WAF cookies, acquire them (an exception propagates — there is no `try` here);
a falsy result (`None` or the empty dict) aborts with `None`; otherwise the
WAF cookies are merged with the user cookies, user entries applied last. -/
def prepare_cookies (provider : ProviderConfig) (launch : Except String Unit)
    (nav : Except String (List (String × String)))
    (user_cookies : List (String × String)) :
    Except String (Option (List (String × String))) := do
  if provider.needs_waf_cookies then
    let waf ← get_waf_cookies_with_playwright launch nav
    match waf with
    | none => pure none
    | some waf_cookies =>
      if waf_cookies.isEmpty then pure none
      else pure (some (mergeDicts waf_cookies user_cookies))
  else
    pure (some (mergeDicts [] user_cookies))

/-- A decoded Python/JSON value. -/
inductive PyVal
  | none
  | bool (b : Bool)
  | int (n : Int)
  | str (s : String)
  | list (xs : List PyVal)
  | dict (d : List (String × PyVal))

/-- Python truthiness of a value. -/
def PyVal.truthy : PyVal → Bool
  | PyVal.none => false
  | PyVal.bool b => b
  | PyVal.int n => n != 0
  | PyVal.str s => s != ""
  | PyVal.list xs => !xs.isEmpty
  | PyVal.dict d => !d.isEmpty

/-- JSON-object lookup with Python-dict semantics (last binding wins). -/
def pyFind : List (String × PyVal) → String → Option PyVal
  | [], _ => Option.none
  | (k, v) :: rest, key =>
    match pyFind rest key with
    | Option.some w => Option.some w
    | Option.none => if k = key then Option.some v else Option.none

/-- Python `d.get(key, default)` on a decoded object known to be a dict. -/
def pyDictGetD (d : List (String × PyVal)) (key : String) (dflt : PyVal) : PyVal :=
  (pyFind d key).getD dflt

/-- Python `obj.get(key, default)`: on a dict it is `pyDictGetD`; on any other
value it raises `AttributeError`. -/
def pyGet (v : PyVal) (key : String) (dflt : PyVal) : Except String PyVal :=
  match v with
  | PyVal.dict d => Except.ok (pyDictGetD d key dflt)
  | _ => Except.error "AttributeError"

/-- Python `x == n` for an integer literal `n`: ints compare numerically and
booleans compare as 1/0 (Python `True == 1` holds); other types are unequal. -/
def pyEqInt : PyVal → Int → Bool
  | PyVal.int m, n => m == n
  | PyVal.bool b, n => (if b then (1 : Int) else 0) == n
  | _, _ => false

/-- Python `x == s` for a string literal `s`. -/
def pyEqStr : PyVal → String → Bool
  | PyVal.str t, s => t == s
  | _, _ => false

/-- Numeric coercion performed by Python's `/` operator: ints divide, booleans
coerce to 1/0, anything else raises `TypeError`. -/
def pyToNum : PyVal → Except String Int
  | PyVal.int n => Except.ok n
  | PyVal.bool b => Except.ok (if b then 1 else 0)
  | _ => Except.error "TypeError: unsupported operand type for /"

/-- Python `str(v)` as far as the embedding needs it (string rendering of
non-string values is abstracted). -/
def pyStr : PyVal → String
  | PyVal.str s => s
  | PyVal.int n => toString n
  | PyVal.bool b => if b then "True" else "False"
  | PyVal.none => "None"
  | PyVal.list _ => "<list>"
  | PyVal.dict _ => "<dict>"

/-- Round-half-to-even to the nearest integer, the tie-breaking rule of
Python's `round`: with `f` the floor of `q` and `r/d` the fractional part,
round down when it is below a half, up when above, and to the even
neighbour on an exact half. -/
def roundHalfEven (q : Rat) : Int :=
  let d : Int := (q.den : Int)
  let f : Int := q.num.fdiv d
  let r : Int := q.num - f * d
  if 2 * r < d then f
  else if d < 2 * r then f + 1
  else if f % 2 = 0 then f else f + 1

/-- Python `round(x, 2)` on the exact rational value (`q * 100` rounded
half-to-even, then placed back over 100). -/
def round2 (q : Rat) : Rat :=
  Rat.divInt (roundHalfEven (Rat.divInt (q.num * 100) (q.den : Int))) 100

/-- Python `s[:n]` (slice of the first `n` characters). -/
def pySlice (s : String) (n : Nat) : String :=
  (s.data.take n).asString

/-- Rendering of a rational balance in a display string (abstraction of
Python float formatting). -/
def ratRepr (q : Rat) : String := toString q

/-- An HTTP response as the script observes it: status code, raw body text,
and the outcome of `response.json()` (`Except.error` is the
`json.JSONDecodeError` raised on an undecodable body). -/
structure HttpResponse where
  status_code : Nat
  text : String
  json : Except String PyVal

/-- The dict returned by `get_user_info`: `success`/`quota`/`used_quota`/
`display` on the success paths, `success=False` with `error` otherwise. -/
structure BalanceInfo where
  success : Bool
  quota : Rat := 0
  used_quota : Rat := 0
  display : String := ""
  error : String := ""
deriving DecidableEq

/-- Body of `get_user_info`'s `try` block (checkin.py lines 128-161): fetch
the user-info URL (the `client.get` outcome is the `fetch` input; a network
exception is `Except.error`), and on HTTP 200 decode the JSON and try
Dialect A (truthy `success` with nested `data.quota` / `data.used_quota`),
then Dialect B (`status` in `("ok", "success")` or `code == 0`, with
top-level `credit` / `usage` and the balance-unavailable message when both
normalised values are zero); any other shape, and any non-200 status, yields
the HTTP-failure dict. -/
def get_user_info_try (fetch : Except String HttpResponse) :
    Except String BalanceInfo := do
  let response ← fetch
  if response.status_code = 200 then
    match response.json with
    | Except.error e => Except.error e
    | Except.ok data => do
      let s ← pyGet data "success" PyVal.none
      if s.truthy then do
        let user_data ← pyGet data "data" (PyVal.dict [])
        let rawQuota ← pyGet user_data "quota" (PyVal.int 0)
        let rawUsed ← pyGet user_data "used_quota" (PyVal.int 0)
        let qn ← pyToNum rawQuota
        let un ← pyToNum rawUsed
        let quota := round2 (Rat.divInt qn 500000)
        let used_quota := round2 (Rat.divInt un 500000)
        pure { success := true, quota := quota, used_quota := used_quota,
               display := "💰 当前余额: $" ++ ratRepr quota ++ "，已使用: $" ++ ratRepr used_quota }
      else do
        let st ← pyGet data "status" PyVal.none
        let cd ← pyGet data "code" PyVal.none
        if pyEqStr st "ok" || pyEqStr st "success" || pyEqInt cd 0 then do
          let rawCredit ← pyGet data "credit" (PyVal.int 0)
          let rawUsage ← pyGet data "usage" (PyVal.int 0)
          let cn ← pyToNum rawCredit
          let un ← pyToNum rawUsage
          let quota := round2 (Rat.divInt cn 500000)
          let used_quota := round2 (Rat.divInt un 500000)
          let msg := if quota ≠ 0 ∨ used_quota ≠ 0 then
              "💰 当前余额: $" ++ ratRepr quota ++ "，已使用: $" ++ ratRepr used_quota
            else "💰 当前余额信息暂不可用"
          pure { success := true, quota := quota, used_quota := used_quota,
                 display := msg }
        else
          pure { success := false,
                 error := "获取用户信息失败: HTTP " ++ toString response.status_code }
  else
    pure { success := false,
           error := "获取用户信息失败: HTTP " ++ toString response.status_code }

/-- Embedding of `get_user_info` (lines 126-163): the `try` body wrapped in
the catch-all `except`, which converts any exception into the failure dict
with the exception text truncated to its first 50 characters. -/
def get_user_info (fetch : Except String HttpResponse) : BalanceInfo :=
  match get_user_info_try fetch with
  | Except.ok info => info
  | Except.error e =>
    { success := false, error := "获取用户信息异常: " ++ pySlice e 50 ++ "..." }

/-- Prefix test on character lists. -/
def listIsPref : List Char → List Char → Bool
  | [], _ => true
  | _ :: _, [] => false
  | p :: ps, c :: cs => p == c && listIsPref ps cs

/-- Substring search on character lists. -/
def listHasSub (pat : List Char) : List Char → Bool
  | [] => pat.isEmpty
  | c :: cs => listIsPref pat (c :: cs) || listHasSub pat cs

/-- Python `pat in s` substring containment. -/
def strContains (s pat : String) : Bool :=
  listHasSub pat.data s.data

/-- The success-flag disjunction of `execute_check_in` (line 192):
`ret == 1 or code == 0 or success` on a decoded object. -/
def checkinFlags (d : List (String × PyVal)) : Bool :=
  pyEqInt (pyDictGetD d "ret" PyVal.none) 1 ||
  pyEqInt (pyDictGetD d "code" PyVal.none) 0 ||
  (pyDictGetD d "success" PyVal.none).truthy

/-- Embedding of `execute_check_in` (lines 180-206).  `post` is the outcome
of `client.post` (a network exception propagates — only `json.JSONDecodeError`
is caught inside this function).  On HTTP 200 the JSON body is decoded: the
flag disjunction decides success, otherwise the failure is reported with the
body's `msg` field (default "Unknown error"); if decoding fails, a
case-insensitive search for the token "success" in the raw body decides.  On
a decoded non-dict body the attribute lookups raise (uncaught here).  A
non-200 status is failure.  The returned pair is the boolean outcome plus
the printed diagnostic. -/
def execute_check_in (post : Except String HttpResponse) :
    Except String (Bool × String) := do
  let response ← post
  if response.status_code = 200 then
    match response.json with
    | Except.ok result => do
      let ret ← pyGet result "ret" PyVal.none
      let cd ← pyGet result "code" PyVal.none
      let succ ← pyGet result "success" PyVal.none
      if pyEqInt ret 1 || pyEqInt cd 0 || succ.truthy then
        pure (true, "签到成功！")
      else do
        let msg ← pyGet result "msg" (PyVal.str "Unknown error")
        pure (false, "签到失败 - " ++ pyStr msg)
    | Except.error _ =>
      if strContains response.text.toLower "success" then
        pure (true, "签到成功！")
      else
        pure (false, "签到失败 - 返回格式无效")
  else
    pure (false, "签到失败 - HTTP " ++ toString response.status_code)

/-- The per-account processing steps that involve a decision or an external
interaction, in the order `check_in_account` performs them. -/
inductive Step
  | resolveProvider
  | parseCookies
  | acquireWaf
  | fetchBalance
  | checkIn
deriving DecidableEq

/-- Result of `check_in_account`: either the Python return value
`(ok, info)` or a propagated exception. -/
inductive Outcome
  | ret (ok : Bool) (info : Option BalanceInfo)
  | exn (e : String)
deriving DecidableEq

/-- The external-world inputs consumed while processing one account:
the provider lookup result (`app_config.get_provider`), the browser-launch
and page-navigation outcomes of the WAF phase, and the two HTTP responses. -/
structure AccountEnv where
  provider : Option ProviderConfig
  launch : Except String Unit
  pageCookies : Except String (List (String × String))
  userInfoResp : Except String HttpResponse
  checkInResp : Except String HttpResponse

/-- Embedding of `check_in_account` (lines 210-255), paired with the trace of
steps reached.  Provider resolution failure and an empty parsed cookie
mapping return `(False, None)`.  `prepare_cookies` is awaited *before* the
`try` block, so an exception from the WAF phase propagates (`Outcome.exn`);
a falsy cookie set returns `(False, None)`.  Inside the `try`:
`get_user_info` never raises; when the provider needs a manual check-in,
`execute_check_in` runs and its exceptions are caught by the `except` branch,
which returns `(False, None)`; otherwise the account succeeds immediately
with the (possibly unsuccessful) balance info. -/
def check_in_account (account : AccountConfig) (env : AccountEnv) :
    Outcome × List Step :=
  match env.provider with
  | Option.none => (Outcome.ret false Option.none, [Step.resolveProvider])
  | Option.some provider =>
    let cookies := parse_cookies account.cookies
    if cookies.isEmpty then
      (Outcome.ret false Option.none, [Step.resolveProvider, Step.parseCookies])
    else
      let steps := [Step.resolveProvider, Step.parseCookies] ++
        (if provider.needs_waf_cookies then [Step.acquireWaf] else [])
      match prepare_cookies provider env.launch env.pageCookies cookies with
      | Except.error e => (Outcome.exn e, steps)
      | Except.ok Option.none => (Outcome.ret false Option.none, steps)
      | Except.ok (Option.some all_cookies) =>
        if all_cookies.isEmpty then (Outcome.ret false Option.none, steps)
        else
          let info := get_user_info env.userInfoResp
          let steps := steps ++ [Step.fetchBalance]
          if provider.needs_manual_check_in then
            match execute_check_in env.checkInResp with
            | Except.ok (success, _) =>
              (Outcome.ret success (Option.some info), steps ++ [Step.checkIn])
            | Except.error _ =>
              (Outcome.ret false Option.none, steps ++ [Step.checkIn])
          else
            (Outcome.ret true (Option.some info), steps)

/-- Embedding of `load_balance_hash` (lines 29-37): read and strip the state
file content when the file exists, `None` otherwise (or on any I/O error). -/
def load_balance_hash (fileContent : Option String) : Option String :=
  fileContent.map (fun s => (stripChars s.data).asString)

/-- An operation on the balance-hash state file. -/
inductive HashOp
  | load
  | save (value : String)
deriving DecidableEq

/-- One row of the notification body: account name, balance, used amount. -/
abbrev BalanceRow := String × Rat × Rat

/-- The observable result of a completed run of `main`: the `sys.exit` code,
whether a DingTalk send was attempted, the balance rows accumulated for the
notification, and the balance-hash state-file operations performed. -/
structure RunResult where
  exitCode : Nat
  notified : Bool
  balances : List BalanceRow
  hashOps : List HashOp
deriving DecidableEq

/-- The account loop of `main` (lines 302-311): process the accounts in
order, counting successes and collecting a balance row for every account
whose returned info is present and successful.  An exception escaping
`check_in_account` is not caught anywhere in `main`, so it aborts the loop
and the whole run. -/
def runAccounts : List (AccountConfig × AccountEnv) →
    Except String (Nat × List BalanceRow)
  | [] => Except.ok (0, [])
  | (account, env) :: rest =>
    match (check_in_account account env).1 with
    | Outcome.exn e => Except.error e
    | Outcome.ret ok info =>
      match runAccounts rest with
      | Except.error e => Except.error e
      | Except.ok (s, rows) =>
        let s' := (if ok then 1 else 0) + s
        let rows' :=
          match info with
          | Option.some i =>
            if i.success then (account.name, i.quota, i.used_quota) :: rows
            else rows
          | Option.none => rows
        Except.ok (s', rows')

/-- The run-level inputs: the configured accounts with their per-account
environments, and the optional DingTalk webhook. -/
structure RunEnv where
  accounts : List (AccountConfig × AccountEnv)
  webhook : Option String

/-- Embedding of `main` (lines 289-315), named `checkin_main` here since `main`
is reserved in Lean.  An empty account list exits with
code 1 before any other work.  Otherwise every account is processed in
order; the DingTalk message is then sent (skipped without error when no
webhook is configured) and the process exits 0 when at least one account
succeeded, 1 otherwise.  `main` performs no balance-hash file operation:
`load_balance_hash` / `save_balance_hash` / `generate_balance_hash` are
defined in the source (lines 29-53) but never called from `main`, so the
`hashOps` component of the result is empty on every path. -/
def checkin_main (env : RunEnv) : Except String RunResult := do
  if env.accounts.isEmpty then
    pure { exitCode := 1, notified := false, balances := [], hashOps := [] }
  else do
    let (success, balances) ← runAccounts env.accounts
    pure { exitCode := if success > 0 then 0 else 1,
           notified := env.webhook.isSome,
           balances := balances,
           hashOps := [] }

/-- A provider that requires WAF cookies and a manual check-in POST
(the anyrouter provider shape). -/
def wafProvider : ProviderConfig :=
  { domain := "https://anyrouter.top", login_path := "/login",
    user_info_path := "/api/user/self", sign_in_path := "/api/user/sign_in",
    api_user_key := "new-api-user", needs_waf_cookies := true,
    needs_manual_check_in := true }

/-- A provider that needs neither WAF cookies nor a manual check-in. -/
def plainProvider : ProviderConfig :=
  { domain := "https://agentrouter.org", login_path := "/login",
    user_info_path := "/api/user/self", sign_in_path := "/api/user/sign_in",
    api_user_key := "new-api-user", needs_waf_cookies := false,
    needs_manual_check_in := false }

/-- An account bound to the WAF-protected provider. -/
def wafAccount : AccountConfig :=
  { provider := "anyrouter", cookies := CookiesData.dict [("session", "abc")],
    api_user := "10001", name := "账号 1" }

/-- An account bound to the plain provider. -/
def plainAccount : AccountConfig :=
  { provider := "agentrouter", cookies := CookiesData.dict [("session", "xyz")],
    api_user := "10002", name := "账号 2" }

/-- A Dialect-A user-info response: quota 1000000, used 250000. -/
def dialectAResp : HttpResponse :=
  { status_code := 200, text := "",
    json := Except.ok (PyVal.dict
      [("success", PyVal.bool true),
       ("data", PyVal.dict [("quota", PyVal.int 1000000),
                            ("used_quota", PyVal.int 250000)])]) }

/-- Environment for the WAF-protected account: the browser launch raises
`NameError` (the source passes `ignorg_https_errors=true` with `true` an
unbound Python name), exactly as every real run of the script does. -/
def wafEnv : AccountEnv :=
  { provider := Option.some wafProvider,
    launch := Except.error "NameError: name true is not defined",
    pageCookies := Except.ok [],
    userInfoResp := Except.error "unreached",
    checkInResp := Except.error "unreached" }

/-- Environment for the plain account: balance fetch succeeds, no check-in
POST is needed. -/
def plainEnv : AccountEnv :=
  { provider := Option.some plainProvider,
    launch := Except.ok (),
    pageCookies := Except.ok [],
    userInfoResp := Except.ok dialectAResp,
    checkInResp := Except.error "unused" }

/-- A two-account run: the WAF-protected account first, the healthy plain
account second, no webhook configured. -/
def twoAccountRun : RunEnv :=
  { accounts := [(wafAccount, wafEnv), (plainAccount, plainEnv)],
    webhook := Option.none }

/-- A single-account run of the healthy plain account, no webhook. -/
def plainRun : RunEnv :=
  { accounts := [(plainAccount, plainEnv)], webhook := Option.none }

/-- A provider without WAF protection but with a manual check-in POST. -/
def manualProvider : ProviderConfig :=
  { domain := "https://agentrouter.org", login_path := "/login",
    user_info_path := "/api/user/self", sign_in_path := "/api/user/sign_in",
    api_user_key := "new-api-user", needs_waf_cookies := false,
    needs_manual_check_in := true }

/-- An account bound to the manual-check-in provider. -/
def manualAccount : AccountConfig :=
  { provider := "agentrouter", cookies := CookiesData.dict [("session", "s")],
    api_user := "10003", name := "账号 3" }

/-- A check-in response carrying `{"ret": 1}` at HTTP 200. -/
def checkinOkResp : HttpResponse :=
  { status_code := 200, text := "",
    json := Except.ok (PyVal.dict [("ret", PyVal.int 1)]) }

/-- Environment where the balance fetch times out but the check-in POST
succeeds. -/
def balFailEnv : AccountEnv :=
  { provider := Option.some manualProvider,
    launch := Except.ok (),
    pageCookies := Except.ok [],
    userInfoResp := Except.error "ReadTimeout",
    checkInResp := Except.ok checkinOkResp }

/-- An account whose raw cookie payload is neither a mapping nor a string. -/
def otherCookieAccount : AccountConfig :=
  { provider := "anyrouter", cookies := CookiesData.other,
    api_user := "10004", name := "账号 4" }

/-- Environment for the WAF-protected provider where the browser launch
succeeds but the page yields only one of the three required cookies. -/
def partialWafEnv : AccountEnv :=
  { provider := Option.some wafProvider,
    launch := Except.ok (),
    pageCookies := Except.ok [("acw_tc", "1"), ("cdn_sec_tc", "2")],
    userInfoResp := Except.error "unused",
    checkInResp := Except.error "unused" }

/-- The three harvested WAF cookies of the spec's merge example. -/
def wafTriple : List (String × String) :=
  [("acw_tc", "1"), ("cdn_sec_tc", "2"), ("acw_sc__v2", "3")]

/-- The user cookie set of the spec's merge example. -/
def userSession : List (String × String) := [("session", "xyz")]

/-- A check-in response carrying `{"code": 1, "msg": "already signed"}`. -/
def alreadySignedResp : HttpResponse :=
  { status_code := 200, text := "",
    json := Except.ok (PyVal.dict
      [("code", PyVal.int 1), ("msg", PyVal.str "already signed")]) }

/-- The claim's characterization of a successful check-in, written from the
spec's words (to be compared with `execute_check_in`): HTTP status 200, and
either the decoded JSON object satisfies the flag disjunction, or decoding
failed and the raw body contains the token "success" case-insensitively. -/
def specCheckInSuccess (resp : HttpResponse) : Prop :=
  resp.status_code = 200 ∧
    (match resp.json with
     | Except.ok (PyVal.dict d) => checkinFlags d = true
     | Except.ok _ => False
     | Except.error _ => strContains resp.text.toLower "success" = true)

/-- A Dialect-B user-info response with zero credit and usage. -/
def dialectBZeroResp : HttpResponse :=
  { status_code := 200, text := "",
    json := Except.ok (PyVal.dict
      [("status", PyVal.str "ok"), ("credit", PyVal.int 0),
       ("usage", PyVal.int 0)]) }

example : parse_cookies (CookiesData.str "acw_tc=abc; foo=bar; broken") =
    [("acw_tc", "abc"), ("foo", "bar")] := by decide

example : wafMissing (harvestWaf [("acw_tc", "1"), ("other", "x")]) =
    ["cdn_sec_tc", "acw_sc__v2"] := by decide

theorem dictFind_append_some {b : List (String × String)} {k v : String}
    (a : List (String × String)) (h : dictFind b k = some v) :
    dictFind (a ++ b) k = some v := by
  induction a with
  | nil => simpa using h
  | cons hd tl ih =>
    obtain ⟨hk, hv⟩ := hd
    show (match dictFind (tl ++ b) k with
      | some w => some w
      | none => if hk = k then some hv else none) = some v
    rw [ih]

theorem dictFind_append_none {b : List (String × String)} {k : String}
    (a : List (String × String)) (h : dictFind b k = none) :
    dictFind (a ++ b) k = dictFind a k := by
  induction a with
  | nil => simpa using h
  | cons hd tl ih =>
    obtain ⟨hk, hv⟩ := hd
    show (match dictFind (tl ++ b) k with
      | some w => some w
      | none => if hk = k then some hv else none) =
      (match dictFind tl k with
      | some w => some w
      | none => if hk = k then some hv else none)
    rw [ih]

theorem contains_iff_mem (l : List String) (a : String) :
    l.contains a = true ↔ a ∈ l := by
  induction l with
  | nil => simp
  | cons h t ih => simp [List.contains] at ih ⊢

/-- Claim C1 (code bug in the source): an exception raised during the WAF
phase of one account is NOT caught at the orchestrator boundary.  The
browser launch in `get_waf_cookies_with_playwright` always raises
`NameError` (the call passes `ignorg_https_errors=true`, and `true` is an
unbound Python name), `prepare_cookies` has no handler, and
`check_in_account` awaits it *before* its `try` block — so the exception
escapes the per-account orchestrator (`Outcome.exn`, not `(False, None)`)
and aborts `main` for the remaining accounts: the two-account run whose
first account is WAF-protected crashes even though its second account is
healthy. -/
theorem C1_waf_exception_aborts_run :
    (check_in_account wafAccount wafEnv).1 =
      Outcome.exn "NameError: name true is not defined" ∧
    checkin_main twoAccountRun =
      Except.error "NameError: name true is not defined" :=
  ⟨by decide, rfl⟩

/-- Claim C2 counterexample: a completed run performs no balance-digest
state-file operation at all — in particular it never loads the persisted
digest, refuting the claim for the concrete run `plainRun`. -/
theorem C2_counterexample_no_digest_load :
    ¬ ∃ r : RunResult, checkin_main plainRun = Except.ok r ∧
      (HashOp.load ∈ r.hashOps ∨ ∃ v, HashOp.save v ∈ r.hashOps) := by
  rintro ⟨r, hr, hmem⟩
  have h0 : checkin_main plainRun = Except.ok
      { exitCode := 0, notified := false,
        balances := [("账号 2", (2 : Rat), Rat.divInt 1 2)], hashOps := [] } := rfl
  rw [h0] at hr
  injection hr with hr
  subst hr
  simp at hmem

/-- Claim C2 amended: the digest helpers `load_balance_hash` /
`save_balance_hash` / `generate_balance_hash` exist in the source, but
`main` never calls them — no run loads, recomputes or saves the balance
digest. -/
theorem C2_amended_no_digest_io (env : RunEnv) (r : RunResult)
    (h : checkin_main env = Except.ok r) : r.hashOps = [] := by
  unfold checkin_main at h
  split at h
  · injection h with h
    subst h
    rfl
  · cases hrun : runAccounts env.accounts with
    | error e => rw [hrun] at h; simp [Bind.bind, Except.bind] at h
    | ok p =>
      obtain ⟨s, bals⟩ := p
      rw [hrun] at h
      simp only [Bind.bind, Except.bind, pure, Except.pure] at h
      injection h with h
      subst h
      rfl

theorem C2_amended_witness :
    checkin_main plainRun = Except.ok
      { exitCode := 0, notified := false,
        balances := [("账号 2", (2 : Rat), Rat.divInt 1 2)], hashOps := [] } ∧
    RunResult.hashOps
      { exitCode := 0, notified := false,
        balances := [("账号 2", (2 : Rat), Rat.divInt 1 2)], hashOps := [] } = [] :=
  ⟨rfl, C2_amended_no_digest_io plainRun _ rfl⟩

/-- Claim C9: `get_user_info` catches every exception of its body and
returns the failure dict whose error text embeds the exception description
truncated to its first 50 characters; the truncated description never
exceeds 50 characters. -/
theorem C9_user_info_never_raises (fetch : Except String HttpResponse)
    (e : String) (h : get_user_info_try fetch = Except.error e) :
    get_user_info fetch =
      { success := false, quota := 0, used_quota := 0, display := "",
        error := "获取用户信息异常: " ++ pySlice e 50 ++ "..." } ∧
    (pySlice e 50).length ≤ 50 := by
  constructor
  · unfold get_user_info
    rw [h]
  · show ((e.data.take 50).asString).length ≤ 50
    have hlen : ((e.data.take 50).asString).length = (e.data.take 50).length := rfl
    rw [hlen]
    exact List.length_take_le 50 e.data

theorem C9_witness :
    get_user_info (Except.error "httpx.ConnectTimeout") =
      { success := false, quota := 0, used_quota := 0, display := "",
        error := "获取用户信息异常: " ++ pySlice "httpx.ConnectTimeout" 50 ++ "..." } ∧
    (pySlice "httpx.ConnectTimeout" 50).length ≤ 50 :=
  C9_user_info_never_raises (Except.error "httpx.ConnectTimeout")
    "httpx.ConnectTimeout" rfl

/-- Claim C10: a raw cookie payload that is neither a mapping nor a string
parses to the empty mapping, and the orchestrator then rejects the account
with `(False, None)` right after cookie parsing — the trace stops before
WAF acquisition, the balance fetch and the check-in. -/
theorem C10_invalid_cookie_payload (acc : AccountConfig) (env : AccountEnv)
    (p : ProviderConfig) (hc : acc.cookies = CookiesData.other)
    (hp : env.provider = Option.some p) :
    parse_cookies acc.cookies = [] ∧
    (check_in_account acc env).1 = Outcome.ret false Option.none ∧
    (check_in_account acc env).2 = [Step.resolveProvider, Step.parseCookies] := by
  refine ⟨by simp [hc, parse_cookies], ?_, ?_⟩ <;>
    simp [check_in_account, hp, hc, parse_cookies]

theorem C10_witness :
    parse_cookies otherCookieAccount.cookies = [] ∧
    (check_in_account otherCookieAccount wafEnv).1 = Outcome.ret false Option.none ∧
    (check_in_account otherCookieAccount wafEnv).2 =
      [Step.resolveProvider, Step.parseCookies] :=
  C10_invalid_cookie_payload otherCookieAccount wafEnv wafProvider rfl rfl

/-- Claim C7: the assembled session cookie mapping contains every key of the
WAF set and of the user set, WAF entries inserted first; on a name clash the
user-supplied value (applied last) is retained, and otherwise the WAF value
survives; and `prepare_cookies` produces exactly this merge on a successful
WAF acquisition. -/
theorem C7_cookie_merge (w u : List (String × String)) :
    (∀ k, k ∈ dictKeys (mergeDicts w u) ↔ k ∈ dictKeys w ∨ k ∈ dictKeys u) ∧
    (∀ k v, dictFind u k = some v → dictFind (mergeDicts w u) k = some v) ∧
    (∀ k, dictFind u k = none → dictFind (mergeDicts w u) k = dictFind w k) ∧
    (∀ (p : ProviderConfig) (launch : Except String Unit)
        (nav : Except String (List (String × String))),
      p.needs_waf_cookies = true →
      get_waf_cookies_with_playwright launch nav = Except.ok (Option.some w) →
      w.isEmpty = false →
      prepare_cookies p launch nav u = Except.ok (Option.some (mergeDicts w u))) := by
  refine ⟨?_, ?_, ?_, ?_⟩
  · intro k
    simp [mergeDicts, dictKeys]
  · intro k v h
    exact dictFind_append_some w h
  · intro k h
    exact dictFind_append_none w h
  · intro p launch nav hneeds hwaf hne
    unfold prepare_cookies
    rw [hneeds]
    simp only [if_true]
    rw [show (do
        let waf ← get_waf_cookies_with_playwright launch nav
        match waf with
        | Option.none => pure Option.none
        | Option.some waf_cookies =>
          if waf_cookies.isEmpty then pure Option.none
          else pure (Option.some (mergeDicts waf_cookies u)) :
        Except String (Option (List (String × String)))) =
      (get_waf_cookies_with_playwright launch nav).bind (fun waf =>
        match waf with
        | Option.none => pure Option.none
        | Option.some waf_cookies =>
          if waf_cookies.isEmpty then pure Option.none
          else pure (Option.some (mergeDicts waf_cookies u))) from rfl]
    rw [hwaf]
    simp [Except.bind, hne, pure, Except.pure]

theorem C7_witness :
    ("acw_tc" ∈ dictKeys (mergeDicts wafTriple userSession) ∧
     "cdn_sec_tc" ∈ dictKeys (mergeDicts wafTriple userSession) ∧
     "acw_sc__v2" ∈ dictKeys (mergeDicts wafTriple userSession) ∧
     "session" ∈ dictKeys (mergeDicts wafTriple userSession)) ∧
    prepare_cookies wafProvider (Except.ok ()) (Except.ok wafTriple) userSession =
      Except.ok (Option.some (mergeDicts wafTriple userSession)) :=
  ⟨⟨((C7_cookie_merge wafTriple userSession).1 "acw_tc").mpr (Or.inl (by decide)),
    ((C7_cookie_merge wafTriple userSession).1 "cdn_sec_tc").mpr (Or.inl (by decide)),
    ((C7_cookie_merge wafTriple userSession).1 "acw_sc__v2").mpr (Or.inl (by decide)),
    ((C7_cookie_merge wafTriple userSession).1 "session").mpr (Or.inr (by decide))⟩,
   (C7_cookie_merge wafTriple userSession).2.2.2 wafProvider (Except.ok ())
     (Except.ok wafTriple) rfl rfl rfl⟩

theorem get_waf_some_keys {launch : Except String Unit}
    {nav : Except String (List (String × String))}
    {wc : List (String × String)}
    (h : get_waf_cookies_with_playwright launch nav = Except.ok (Option.some wc)) :
    ∀ r ∈ wafRequired, r ∈ dictKeys wc := by
  intro r hr
  cases launch with
  | error e => exact Except.noConfusion h
  | ok u =>
    cases nav with
    | error e => exact Option.noConfusion (Except.ok.inj h)
    | ok pc =>
      unfold get_waf_cookies_with_playwright at h
      simp only [Bind.bind, Except.bind] at h
      split at h
      · rename_i hm
        simp only [pure, Except.pure, Except.ok.injEq, Option.some.injEq] at h
        subst h
        have hnil : wafMissing (harvestWaf pc) = [] := List.isEmpty_iff.mp hm
        unfold wafMissing at hnil
        have hall := List.filter_eq_nil_iff.mp hnil r hr
        have hcontains : (dictKeys (harvestWaf pc)).contains r = true := by
          cases hcase : (dictKeys (harvestWaf pc)).contains r with
          | true => rfl
          | false => exact absurd (by rw [hcase]; rfl) hall
        exact (contains_iff_mem _ r).mp hcontains
      · simp [pure, Except.pure] at h

theorem prepare_some_decomp {p : ProviderConfig} {launch : Except String Unit}
    {nav : Except String (List (String × String))}
    {user w : List (String × String)}
    (hneeds : p.needs_waf_cookies = true)
    (h : prepare_cookies p launch nav user = Except.ok (Option.some w)) :
    ∃ wc, get_waf_cookies_with_playwright launch nav = Except.ok (Option.some wc) ∧
      wc.isEmpty = false ∧ w = mergeDicts wc user := by
  unfold prepare_cookies at h
  rw [hneeds] at h
  simp only [if_true, Bind.bind] at h
  cases hg : get_waf_cookies_with_playwright launch nav with
  | error e => rw [hg] at h; simp [Except.bind] at h
  | ok waf =>
    rw [hg] at h
    cases waf with
    | none => simp [Except.bind, pure, Except.pure] at h
    | some wc =>
      simp only [Except.bind] at h
      split at h
      · simp [pure, Except.pure] at h
      · rename_i hne
        refine ⟨wc, rfl, by simpa using hne, ?_⟩
        simp only [pure, Except.pure, Except.ok.injEq, Option.some.injEq] at h
        exact h.symm

theorem prepare_of_waf_none {p : ProviderConfig} {launch : Except String Unit}
    {nav : Except String (List (String × String))}
    (user : List (String × String))
    (hneeds : p.needs_waf_cookies = true)
    (hg : get_waf_cookies_with_playwright launch nav = Except.ok Option.none) :
    prepare_cookies p launch nav user = Except.ok Option.none := by
  unfold prepare_cookies
  rw [hneeds]
  simp only [if_true, Bind.bind]
  rw [hg]
  simp [Except.bind, pure, Except.pure]

/-- Claim C3: whenever the provider needs WAF cookies, a session cookie set
that reaches the check-in request contains all three WAF cookie names; and
when the harvested set misses one of the three, WAF acquisition reports
failure (`None`, with `wafMissing` naming the absent cookies) and the
orchestrator returns `(False, None)` without ever reaching the balance
fetch or the check-in step. -/
theorem C3_waf_cookie_gate (p : ProviderConfig) (launch : Except String Unit)
    (nav : Except String (List (String × String)))
    (user pc : List (String × String))
    (hneeds : p.needs_waf_cookies = true) :
    (∀ w, prepare_cookies p launch nav user = Except.ok (Option.some w) →
      "acw_tc" ∈ dictKeys w ∧ "cdn_sec_tc" ∈ dictKeys w ∧
        "acw_sc__v2" ∈ dictKeys w) ∧
    (launch = Except.ok () → nav = Except.ok pc →
      wafMissing (harvestWaf pc) ≠ [] →
      get_waf_cookies_with_playwright launch nav = Except.ok Option.none) ∧
    (∀ (acc : AccountConfig) (env : AccountEnv),
      env.provider = Option.some p → env.launch = Except.ok () →
      env.pageCookies = Except.ok pc → acc.cookies = CookiesData.dict user →
      user ≠ [] → wafMissing (harvestWaf pc) ≠ [] →
      (check_in_account acc env).1 = Outcome.ret false Option.none ∧
      Step.fetchBalance ∉ (check_in_account acc env).2 ∧
      Step.checkIn ∉ (check_in_account acc env).2) := by
  have waf_none : wafMissing (harvestWaf pc) ≠ [] →
      get_waf_cookies_with_playwright (Except.ok ()) (Except.ok pc) =
        Except.ok Option.none := by
    intro hm
    unfold get_waf_cookies_with_playwright
    simp only [Bind.bind, Except.bind]
    rw [if_neg (by simpa using List.isEmpty_iff.not.mpr hm)]
    rfl
  refine ⟨?_, fun hl hn hm => by rw [hl, hn]; exact waf_none hm, ?_⟩
  · intro w hprep
    obtain ⟨wc, hg, _, hw⟩ := prepare_some_decomp hneeds hprep
    have hkeys := get_waf_some_keys hg
    subst hw
    have hsub : ∀ r, r ∈ dictKeys wc → r ∈ dictKeys (mergeDicts wc user) := by
      intro r hr
      simp only [mergeDicts, dictKeys, List.map_append, List.mem_append]
      exact Or.inl hr
    exact ⟨hsub _ (hkeys _ (by decide)), hsub _ (hkeys _ (by decide)),
      hsub _ (hkeys _ (by decide))⟩
  · intro acc env hp hl hn hcd hune hm
    have hprep : prepare_cookies p env.launch env.pageCookies
        (parse_cookies acc.cookies) = Except.ok Option.none := by
      exact prepare_of_waf_none _ hneeds (by rw [hl, hn]; exact waf_none hm)
    have hne : (parse_cookies acc.cookies).isEmpty = false := by
      rw [hcd]
      simpa [parse_cookies] using List.isEmpty_iff.not.mpr hune
    have hacct : check_in_account acc env = (Outcome.ret false Option.none,
        [Step.resolveProvider, Step.parseCookies, Step.acquireWaf]) := by
      unfold check_in_account
      rw [hp]
      simp only [hne, Bool.false_eq_true, if_false, hprep, hneeds,
        eq_self_iff_true, if_true]
      rfl
    refine ⟨?_, ?_, ?_⟩ <;> rw [hacct] <;> decide

theorem C3_witness :
    (check_in_account wafAccount partialWafEnv).1 = Outcome.ret false Option.none ∧
    Step.fetchBalance ∉ (check_in_account wafAccount partialWafEnv).2 ∧
    Step.checkIn ∉ (check_in_account wafAccount partialWafEnv).2 :=
  (C3_waf_cookie_gate wafProvider (Except.ok ())
      (Except.ok [("acw_tc", "1"), ("cdn_sec_tc", "2")])
      [("session", "abc")] [("acw_tc", "1"), ("cdn_sec_tc", "2")] rfl).2.2
    wafAccount partialWafEnv rfl rfl rfl rfl (by decide) (by decide)

/-- Claim C8: a failed balance fetch is not terminal — with a resolved
provider, a non-empty cookie set and a successful session assembly, even
when `get_user_info` reports failure the orchestrator still reaches the
check-in step, and the account outcome is exactly the classification of the
check-in response (the prior balance read plays no role in it). -/
theorem C8_balance_failure_not_terminal (acc : AccountConfig) (env : AccountEnv)
    (p : ProviderConfig) (w : List (String × String))
    (hp : env.provider = Option.some p)
    (hm : p.needs_manual_check_in = true)
    (hc : (parse_cookies acc.cookies).isEmpty = false)
    (hprep : prepare_cookies p env.launch env.pageCookies
      (parse_cookies acc.cookies) = Except.ok (Option.some w))
    (hw : w.isEmpty = false)
    (_hbal : (get_user_info env.userInfoResp).success = false) :
    Step.checkIn ∈ (check_in_account acc env).2 ∧
    (check_in_account acc env).1 =
      (match execute_check_in env.checkInResp with
       | Except.ok (s, _) =>
         Outcome.ret s (Option.some (get_user_info env.userInfoResp))
       | Except.error _ => Outcome.ret false Option.none) := by
  unfold check_in_account
  rw [hp]
  simp only [hc, Bool.false_eq_true, if_false, hprep, hw, hm, if_true]
  cases hex : execute_check_in env.checkInResp with
  | ok pr =>
    obtain ⟨s, m⟩ := pr
    simp [List.mem_append]
  | error e =>
    simp [List.mem_append]

theorem C8_witness :
    Step.checkIn ∈ (check_in_account manualAccount balFailEnv).2 ∧
    (check_in_account manualAccount balFailEnv).1 =
      (match execute_check_in balFailEnv.checkInResp with
       | Except.ok (s, _) =>
         Outcome.ret s (Option.some (get_user_info balFailEnv.userInfoResp))
       | Except.error _ => Outcome.ret false Option.none) :=
  C8_balance_failure_not_terminal manualAccount balFailEnv manualProvider
    [("session", "s")] rfl rfl rfl rfl rfl rfl

/-- Claim C4: the check-in classification returns success exactly when the
HTTP status is 200 and either the decoded object has `ret == 1`, `code == 0`
or a truthy `success`, or — when JSON decoding fails — the raw body contains
"success" case-insensitively; and a decoded object matching none of the
flags is reported as failure with the object's `msg` field (default
"Unknown error") in the diagnostic. -/
theorem C4_checkin_classification (resp : HttpResponse) :
    ((∃ m, execute_check_in (Except.ok resp) = Except.ok (true, m)) ↔
      specCheckInSuccess resp) ∧
    (∀ d, resp.status_code = 200 → resp.json = Except.ok (PyVal.dict d) →
      checkinFlags d = false →
      execute_check_in (Except.ok resp) = Except.ok (false, "签到失败 - " ++
        pyStr (pyDictGetD d "msg" (PyVal.str "Unknown error")))) := by
  constructor
  · unfold specCheckInSuccess
    by_cases h200 : resp.status_code = 200
    · cases hj : resp.json with
      | error e =>
        by_cases hs : strContains resp.text.toLower "success" = true
        · simp [execute_check_in, Bind.bind, Except.bind, h200, hj, hs,
            pure, Except.pure]
        · simp [execute_check_in, Bind.bind, Except.bind, h200, hj, hs,
            pure, Except.pure]
      | ok v =>
        cases v with
        | dict d =>
          by_cases hf : checkinFlags d = true
          · have hf' : (pyEqInt (pyDictGetD d "ret" PyVal.none) 1 ||
                pyEqInt (pyDictGetD d "code" PyVal.none) 0 ||
                (pyDictGetD d "success" PyVal.none).truthy) = true := by
              simpa [checkinFlags] using hf
            simp [execute_check_in, Bind.bind, Except.bind, h200, hj, hf, hf',
              pyGet, pure, Except.pure]
          · have hf' : (pyEqInt (pyDictGetD d "ret" PyVal.none) 1 ||
                pyEqInt (pyDictGetD d "code" PyVal.none) 0 ||
                (pyDictGetD d "success" PyVal.none).truthy) = false := by
              simpa [checkinFlags] using hf
            simp [execute_check_in, Bind.bind, Except.bind, h200, hj, hf, hf',
              pyGet, pure, Except.pure]
        | none =>
          simp [execute_check_in, Bind.bind, Except.bind, h200, hj, pyGet,
            pure, Except.pure]
        | bool b =>
          simp [execute_check_in, Bind.bind, Except.bind, h200, hj, pyGet,
            pure, Except.pure]
        | int n =>
          simp [execute_check_in, Bind.bind, Except.bind, h200, hj, pyGet,
            pure, Except.pure]
        | str t =>
          simp [execute_check_in, Bind.bind, Except.bind, h200, hj, pyGet,
            pure, Except.pure]
        | list xs =>
          simp [execute_check_in, Bind.bind, Except.bind, h200, hj, pyGet,
            pure, Except.pure]
    · simp [execute_check_in, Bind.bind, Except.bind, h200, pure, Except.pure]
  · intro d h200 hj hflags
    have hf' : (pyEqInt (pyDictGetD d "ret" PyVal.none) 1 ||
        pyEqInt (pyDictGetD d "code" PyVal.none) 0 ||
        (pyDictGetD d "success" PyVal.none).truthy) = false := by
      simpa [checkinFlags] using hflags
    simp [execute_check_in, Bind.bind, Except.bind, h200, hj, hf', pyGet,
      pure, Except.pure]

theorem C4_witness :
    execute_check_in (Except.ok alreadySignedResp) =
      Except.ok (false, "签到失败 - " ++
        pyStr (pyDictGetD [("code", PyVal.int 1), ("msg", PyVal.str "already signed")]
          "msg" (PyVal.str "Unknown error"))) :=
  (C4_checkin_classification alreadySignedResp).2
    [("code", PyVal.int 1), ("msg", PyVal.str "already signed")] rfl rfl (by decide)

/-- Claim C5: on a Dialect-B payload (no truthy `success`, but `status` in
`("ok", "success")` or `code == 0`) whose normalised credit and usage are
both zero, `get_user_info` reports success with both quotas 0 and the
balance-unavailable display instead of a `$0/$0` string. -/
theorem C5_dialectB_zero_is_unavailable (resp : HttpResponse)
    (d : List (String × PyVal)) (c u : Int)
    (h200 : resp.status_code = 200)
    (hj : resp.json = Except.ok (PyVal.dict d))
    (hA : (pyDictGetD d "success" PyVal.none).truthy = false)
    (hB : (pyEqStr (pyDictGetD d "status" PyVal.none) "ok" ||
           pyEqStr (pyDictGetD d "status" PyVal.none) "success" ||
           pyEqInt (pyDictGetD d "code" PyVal.none) 0) = true)
    (hc : pyToNum (pyDictGetD d "credit" (PyVal.int 0)) = Except.ok c)
    (hu : pyToNum (pyDictGetD d "usage" (PyVal.int 0)) = Except.ok u)
    (hzc : round2 (Rat.divInt c 500000) = 0)
    (hzu : round2 (Rat.divInt u 500000) = 0) :
    get_user_info (Except.ok resp) =
      { success := true, quota := 0, used_quota := 0,
        display := "💰 当前余额信息暂不可用", error := "" } := by
  unfold get_user_info get_user_info_try
  simp [Bind.bind, Except.bind, h200, hj, hA, hB, hc, hu, hzc, hzu, pyGet,
    pure, Except.pure]

theorem C5_witness :
    get_user_info (Except.ok dialectBZeroResp) =
      { success := true, quota := 0, used_quota := 0,
        display := "💰 当前余额信息暂不可用", error := "" } :=
  C5_dialectB_zero_is_unavailable dialectBZeroResp
    [("status", PyVal.str "ok"), ("credit", PyVal.int 0), ("usage", PyVal.int 0)]
    0 0 rfl rfl rfl (by decide) rfl rfl (by decide) (by decide)

/-- Claim C6: on a Dialect-A payload (truthy `success` with a nested `data`
object carrying integer `quota` and `used_quota`), `get_user_info` returns
success with `quota = round(raw_quota / 500000, 2)` and
`used_quota = round(raw_used_quota / 500000, 2)`. -/
theorem C6_dialectA_normalisation (resp : HttpResponse)
    (d dd : List (String × PyVal)) (q u : Int)
    (h200 : resp.status_code = 200)
    (hj : resp.json = Except.ok (PyVal.dict d))
    (hA : (pyDictGetD d "success" PyVal.none).truthy = true)
    (hdata : pyDictGetD d "data" (PyVal.dict []) = PyVal.dict dd)
    (hq : pyDictGetD dd "quota" (PyVal.int 0) = PyVal.int q)
    (hu : pyDictGetD dd "used_quota" (PyVal.int 0) = PyVal.int u) :
    get_user_info (Except.ok resp) =
      { success := true, quota := round2 (Rat.divInt q 500000),
        used_quota := round2 (Rat.divInt u 500000),
        display := "💰 当前余额: $" ++ ratRepr (round2 (Rat.divInt q 500000)) ++
          "，已使用: $" ++ ratRepr (round2 (Rat.divInt u 500000)),
        error := "" } := by
  unfold get_user_info get_user_info_try
  simp [Bind.bind, Except.bind, h200, hj, hA, hdata, hq, hu, pyGet, pyToNum,
    pure, Except.pure]

theorem C6_witness :
    get_user_info (Except.ok dialectAResp) =
      { success := true, quota := round2 (Rat.divInt 1000000 500000),
        used_quota := round2 (Rat.divInt 250000 500000),
        display := "💰 当前余额: $" ++ ratRepr (round2 (Rat.divInt 1000000 500000)) ++
          "，已使用: $" ++ ratRepr (round2 (Rat.divInt 250000 500000)),
        error := "" } ∧
    round2 (Rat.divInt 1000000 500000) = 2 ∧
    round2 (Rat.divInt 250000 500000) = Rat.divInt 1 2 :=
  ⟨C6_dialectA_normalisation dialectAResp
      [("success", PyVal.bool true),
       ("data", PyVal.dict [("quota", PyVal.int 1000000),
                            ("used_quota", PyVal.int 250000)])]
      [("quota", PyVal.int 1000000), ("used_quota", PyVal.int 250000)]
      1000000 250000 rfl rfl rfl rfl rfl rfl,
   by decide, by decide⟩
